import Mathlib

/-!
Verification development for the JARVIS orchestration core.

Shallow embedding of:
- `src/cognitive/planner.py` (`ReActPlanner.plan_and_execute`,
  `ReActPlanner._execute_tool_calls`),
- `src/skills/terminal.py` (`TerminalSkill` and its helpers),
- `src/skills/base_skill.py` (`create_tool_schema`),
- `src/config.py` (`SecurityConfig` defaults).

Python dicts keyed by strings are modelled as association lists, JSON-like
values by the inductive `Value`, exceptions by `Except String`, and the
external collaborators (LLM client, subprocess spawning, confirmation
callback) by explicit oracles.  Side effects relevant to the claims
(confirmation prompts issued, subprocesses spawned) are recorded explicitly.

Two source facts are modelled explicitly because they drive the observable
behaviour: `planner.py` line 20 defines its own `SkillResult` dataclass,
distinct from `base_skill.SkillResult` which the bundled skills return, so
the `isinstance(result, SkillResult)` test at `planner.py` line 243 is false
for real skill results and the dispatch records a dict embedding the raw
result object; and `json.dumps` at `planner.py` line 181 raises `TypeError`
on such a dict, which the outer `except` converts into the apologetic
message and a `break`.
-/

/-- JSON-like values, used for skill outputs, tool schemas and subprocess
result dictionaries. -/
inductive Value where
  | null
  | bool (b : Bool)
  | int (n : Int)
  | str (s : String)
  | arr (xs : List Value)
  | obj (fields : List (String × Value))

/-- The three fields shared by the two distinct `SkillResult` dataclasses of
the source: `base_skill.SkillResult` (returned by the skills) and the
planner-local `SkillResult` of `planner.py` lines 19-26 (whose extra
confirmation fields are never read by the loop); `output=None` is modelled
as `Value.null`. -/
structure SkillResult where
  success : Bool
  output : Value
  error : Option String

/-- What a Python skill handler returned from `execute` when it did not
raise, as discriminated by the `isinstance(result, SkillResult)` test at
`planner.py` line 243.  That test names the planner-local `SkillResult`
class, so only a `plannerSkillResult` passes it; a `baseSkillResult` (what
the bundled skills actually return, an instance of
`base_skill.SkillResult`) and any other value fall into the else branch.
A `baseSkillResult` is a dataclass instance and is not JSON-serializable;
a `jsonValue` is. -/
inductive ExecValue where
  | plannerSkillResult (r : SkillResult)
  | baseSkillResult (r : SkillResult)
  | jsonValue (v : Value)

/-- Outcome of running the execute of a skill handler: the returned value or
the raised exception message, together with the list of subprocess commands
the handler spawned while running. -/
structure ExecOutcome where
  result : Except String ExecValue
  spawned : List String

/-- One tool call from a reasoning response: `{id, name, arguments}` as built
by `LLMBrain.chat` (`src/cognitive/llm_brain.py` lines 100-108).  `α` is the
type of the parsed `arguments` mapping; having come from `json.loads`, the
arguments are always JSON-serializable. -/
structure ToolCall (α : Type) where
  id : String
  name : String
  arguments : α

/-- A registered skill handler as the planner sees it: the
`hasattr(skill, 'needs_confirmation')` test, the predicate itself, and
`execute`. -/
structure PSkill (α : Type) where
  hasNeedsConfirmation : Bool
  needsConfirmation : α → Bool
  execute : α → ExecOutcome

/-- Side effects of a dispatch recorded for verification: how many
confirmation prompts were issued and which subprocess commands were
spawned. -/
structure Effects where
  prompts : Nat
  spawned : List String

/-- Environment of `ReActPlanner._execute_tool_calls`: the skills dict and
the optional confirmation callback.  The Python callback receives a rendered
description of the call and returns a boolean; the model passes the call
itself. -/
structure DispatchEnv (α : Type) where
  skills : List (String × PSkill α)
  confirmCallback : Option (ToolCall α → Bool)

/-- The output slot of a result dict built by `_execute_tool_calls`: either
a JSON-serializable value (also standing for a null or absent output key),
or the raw `base_skill.SkillResult` object stored unconverted by the else
branch at `planner.py` lines 250-253, which `json.dumps` cannot
serialize. -/
inductive OutputVal where
  | val (v : Value)
  | obj (r : SkillResult)

/-- One result dict appended to `results` in `_execute_tool_calls`; dicts
built without an output or error key are modelled with `.val .null` and
`none` respectively. -/
structure ResultDict where
  success : Bool
  output : OutputVal
  error : Option String

/-- Whether `json.dumps` succeeds on a result dict: it fails exactly when
the output slot holds a raw `SkillResult` object. -/
def serializableDict (d : ResultDict) : Bool :=
  match d.output with
  | .val _ => true
  | .obj _ => false

/-- The `result = await skill.execute(**arguments)` step of
`_execute_tool_calls` (`src/cognitive/planner.py` lines 240-260): a value
passing the planner-local isinstance test is copied field-by-field; any
other return value — including a `base_skill.SkillResult` instance — is
recorded as success true with the raw value in output; an exception becomes
a failure dict carrying its message. -/
def runExec {α : Type} (sk : PSkill α) (a : α) : ResultDict × Effects :=
  let out := sk.execute a
  (match out.result with
    | .error e => { success := false, output := .val .null, error := some e }
    | .ok (.plannerSkillResult r) =>
        { success := r.success, output := .val r.output, error := r.error }
    | .ok (.baseSkillResult r) =>
        { success := true, output := .obj r, error := none }
    | .ok (.jsonValue v) =>
        { success := true, output := .val v, error := none },
   { prompts := 0, spawned := out.spawned })

/-- One iteration of the `for tc in tool_calls` loop of
`ReActPlanner._execute_tool_calls` (`src/cognitive/planner.py` lines
211-260): unknown-skill check, confirmation gate, execution. -/
def dispatchOne {α : Type} (env : DispatchEnv α) (tc : ToolCall α) :
    ResultDict × Effects :=
  match env.skills.lookup tc.name with
  | none =>
      ({ success := false, output := .val .null,
         error := some ("未知的技能: " ++ tc.name) },
       { prompts := 0, spawned := [] })
  | some sk =>
      if sk.hasNeedsConfirmation && sk.needsConfirmation tc.arguments then
        match env.confirmCallback with
        | some cb =>
            if cb tc then
              let re := runExec sk tc.arguments
              (re.1, { re.2 with prompts := re.2.prompts + 1 })
            else
              ({ success := false, output := .val .null,
                 error := some "用户拒绝执行此操作" },
               { prompts := 1, spawned := [] })
        | none => runExec sk tc.arguments
      else
        runExec sk tc.arguments

/-- The results list built by `ReActPlanner._execute_tool_calls`: every
branch of the loop body appends exactly one result dict per call. -/
def executeToolCalls {α : Type} (env : DispatchEnv α) :
    List (ToolCall α) → List ResultDict
  | [] => []
  | tc :: rest => (dispatchOne env tc).1 :: executeToolCalls env rest

/-- Transcript messages as built in `plan_and_execute`
(`src/cognitive/planner.py` lines 129-182).  A tool message stores the
result dict whose `json.dumps` serialization it carries; only serializable
dicts ever become messages. -/
inductive Message (α : Type) where
  | system (content : String)
  | user (content : String)
  | assistant (content : String)
  | assistantToolCalls (content : String) (toolCalls : List (ToolCall α))
  | tool (toolCallId : String) (result : ResultDict)

/-- A reasoning response as returned by `LLMBrain.chat`: `content` plus
`tool_calls`, which is `None` or a list. -/
structure ChatResponse (α : Type) where
  content : String
  toolCalls : Option (List (ToolCall α))

/-- Python truthiness of `response.get("tool_calls")`: `None` and the empty
list are falsy. -/
def hasToolCalls {α : Type} : Option (List (ToolCall α)) → Bool
  | none => false
  | some l => !l.isEmpty

/-- The `str(e)` of the `TypeError` raised by `json.dumps` on a dict holding
a `base_skill.SkillResult` object. -/
def serializeErrorMsg : String :=
  "Object of type SkillResult is not JSON serializable"

/-- The `for tc, result in zip(...)` stitching loop of `plan_and_execute`
(`src/cognitive/planner.py` lines 177-182): appends one tool message per
pair until `json.dumps` raises on a non-serializable result dict; returns
the messages actually appended and the exception message if one was
raised. -/
def stitchToolMessages {α : Type} :
    List (ToolCall α) → List ResultDict → List (Message α) × Option String
  | [], _ => ([], none)
  | _ :: _, [] => ([], none)
  | tc :: tcs, r :: rs =>
      if serializableDict r then
        (Message.tool tc.id r :: (stitchToolMessages tcs rs).1,
         (stitchToolMessages tcs rs).2)
      else
        ([], some serializeErrorMsg)

/-- The transcript update performed in the tool-call branch of the loop
(`src/cognitive/planner.py` lines 161-182): append the assistant message
carrying the original tool calls (its own serialization of the arguments
always succeeds), then tool messages until serialization fails; the second
component is the exception message when it did. -/
def stepStitch {α : Type} (env : DispatchEnv α) (messages : List (Message α))
    (content : String) (tcs : List (ToolCall α)) :
    List (Message α) × Option String :=
  (messages ++ Message.assistantToolCalls content tcs ::
     (stitchToolMessages tcs (executeToolCalls env tcs)).1,
   (stitchToolMessages tcs (executeToolCalls env tcs)).2)

/-- `ReActPlanner.MAX_ITERATIONS` (`src/cognitive/planner.py` line 35). -/
def MAX_ITERATIONS : Nat := 10

/-- The apologetic error message of `src/cognitive/planner.py` line 194: a
fixed prefix followed by the str of the caught exception. -/
def apologeticMessage (e : String) : String :=
  "抱歉，处理请求时出现错误: " ++ e

/-- The fixed cap message of `src/cognitive/planner.py` line 199. -/
def capMessage : String := "抱歉，任务过于复杂，无法在限定步骤内完成。"

/-- Observable outcome of one `plan_and_execute` run: the final response
text, the final value of the `iteration` counter, the number of reasoning
calls made, and the transcript built. -/
structure LoopOut (α : Type) where
  finalResponse : String
  iteration : Nat
  calls : Nat
  messages : List (Message α)

/-- The `while iteration < MAX_ITERATIONS` loop of
`ReActPlanner.plan_and_execute` (`src/cognitive/planner.py` lines 147-195),
with `fuel = MAX_ITERATIONS - iteration`.  The reasoning client is an oracle
from the (1-based) iteration number to its outcome.  A raised exception —
whether from the client call itself or from `json.dumps` while stitching the
tool messages — is caught by the one `except` at line 192, which sets the
apologetic message and breaks; a plain-content response breaks with that
content; otherwise the loop continues with the stitched transcript. -/
def reactLoopAux {α : Type} (env : DispatchEnv α)
    (brain : Nat → Except String (ChatResponse α)) :
    (fuel iteration calls : Nat) → List (Message α) → LoopOut α
  | 0, iteration, calls, messages =>
      { finalResponse := "", iteration := iteration, calls := calls,
        messages := messages }
  | fuel + 1, iteration, calls, messages =>
      match brain (iteration + 1) with
      | .error e =>
          { finalResponse := apologeticMessage e, iteration := iteration + 1,
            calls := calls + 1, messages := messages }
      | .ok resp =>
          if hasToolCalls resp.toolCalls then
            match (stepStitch env messages resp.content
                (resp.toolCalls.getD [])).2 with
            | some e =>
                { finalResponse := apologeticMessage e,
                  iteration := iteration + 1, calls := calls + 1,
                  messages := (stepStitch env messages resp.content
                    (resp.toolCalls.getD [])).1 }
            | none =>
                reactLoopAux env brain fuel (iteration + 1) (calls + 1)
                  (stepStitch env messages resp.content
                    (resp.toolCalls.getD [])).1
          else
            { finalResponse := resp.content, iteration := iteration + 1,
              calls := calls + 1, messages := messages }

/-- `ReActPlanner.plan_and_execute` (`src/cognitive/planner.py` lines
113-205) after the initial transcript (system prompt plus recent history,
abstracted as `initMessages`) has been built: run the ReAct loop, then apply
the final `if iteration >= self.MAX_ITERATIONS` overwrite of
`final_response` (lines 197-199). -/
def planAndExecute {α : Type} (env : DispatchEnv α)
    (brain : Nat → Except String (ChatResponse α))
    (initMessages : List (Message α)) : LoopOut α :=
  let out := reactLoopAux env brain MAX_ITERATIONS 0 0 initMessages
  if MAX_ITERATIONS ≤ out.iteration then
    { out with finalResponse := capMessage }
  else
    out

/-- The command-related fields of `SecurityConfig` (`src/config.py` lines
74-112). -/
structure SecurityConfig where
  allowed_directories : List String
  forbidden_directories : List String
  safe_commands : List String
  forbidden_commands : List String

/-- The default `SecurityConfig` of `src/config.py`. -/
def defaultSecurityConfig : SecurityConfig :=
  { allowed_directories := ["~/Desktop", "~/Documents", "~/Downloads"]
  , forbidden_directories :=
      ["C:\\Windows", "C:\\Program Files", "C:\\Program Files (x86)",
       "/System", "/usr", "/bin"]
  , safe_commands :=
      ["dir", "ls", "cat", "type", "echo", "pwd", "cd",
       "whoami", "date", "time", "hostname",
       "python --version", "pip list", "node --version"]
  , forbidden_commands :=
      ["rm -rf", "del /f", "format", "mkfs",
       "shutdown", "reboot", "halt",
       "DROP", "DELETE FROM", "TRUNCATE"] }

/-- Python `str.lower()` modelled character-wise. -/
def lowerChars (s : String) : List Char := s.data.map Char.toLower

/-- Python `str.strip()`: drop leading and trailing whitespace. -/
def pyStrip (s : List Char) : List Char :=
  ((s.dropWhile Char.isWhitespace).reverse.dropWhile Char.isWhitespace).reverse

/-- Python substring containment `needle in hay`. -/
def isSubList (n : List Char) : List Char → Bool
  | [] => n.isEmpty
  | c :: t => n.isPrefixOf (c :: t) || isSubList n t

/-- Python `s.split()[0] if s.split() else ""`: the first
whitespace-separated word of `s`, or the empty word when there is none
(total model of the indexing, which in Python cannot fail on a non-empty
split). -/
def firstWord (s : List Char) : List Char :=
  (s.dropWhile Char.isWhitespace).takeWhile (fun c => !(Char.isWhitespace c))

/-- `TerminalSkill._is_command_safe` (`src/skills/terminal.py` lines 30-39):
lowercase and strip the command, then reject it if any entry of the
forbidden-commands list occurs in it as a substring (entries are lowercased
before matching). -/
def isCommandSafe (cfg : SecurityConfig) (command : String) : Bool :=
  let commandLower := pyStrip (lowerChars command)
  cfg.forbidden_commands.all (fun f => !(isSubList (lowerChars f) commandLower))

/-- `TerminalSkill._is_command_readonly` (`src/skills/terminal.py` lines
41-55): the command is read-only when it starts with a safe-commands entry
or its first word equals the entry's first word. -/
def isCommandReadonly (cfg : SecurityConfig) (command : String) : Bool :=
  let commandLower := pyStrip (lowerChars command)
  let fw := firstWord commandLower
  cfg.safe_commands.any (fun safe =>
    (lowerChars safe).isPrefixOf commandLower ||
      fw == firstWord (lowerChars safe))

/-- Arguments of a terminal tool call (`src/skills/terminal.py` lines
68 and 85-90): the keys of the arguments dict passed to
`TerminalSkill.execute`. -/
structure TermArgs where
  action : String
  command : String
  cwd : Option String := none
  timeoutSec : Nat := 30

/-- `TerminalSkill.needs_confirmation` (`src/skills/terminal.py` lines
57-66): read-only commands need no confirmation, everything else does. -/
def termNeedsConfirmation (cfg : SecurityConfig) (args : TermArgs) : Bool :=
  !(isCommandReadonly cfg args.command)

/-- Outcome of an actual subprocess run, supplied as an oracle: whether it
hit the timeout, and otherwise its return code and raw outputs. -/
structure SubprocOutcome where
  timedOut : Bool
  returncode : Int
  stdout : String
  stderr : String

/-- Python `str.strip()` on a `String`. -/
def stripString (s : String) : String := String.mk (pyStrip s.data)

/-- The output-length cap of `_run_command` (`src/skills/terminal.py` lines
140-141). -/
def truncateOutput (s : String) : String :=
  if 5000 < s.length then String.mk (s.data.take 5000) ++ "\n...(输出已截断)"
  else s

/-- `TerminalSkill._run_command` (`src/skills/terminal.py` lines 85-164):
reject unsafe commands before any process is spawned; otherwise spawn the
command (recorded in the second component) and package the oracle's outcome
exactly as the source does. -/
def runCommand (cfg : SecurityConfig) (oracle : String → SubprocOutcome)
    (command : String) (timeoutSec : Nat) : SkillResult × List String :=
  if !(isCommandSafe cfg command) then
    ({ success := false, output := .null,
       error := some "命令被拒绝：包含禁止的操作" }, [])
  else
    let out := oracle command
    if out.timedOut then
      ({ success := false, output := .null,
         error := some ("命令执行超时（" ++ toString timeoutSec ++ "秒）") },
       [command])
    else
      let stdoutStr := truncateOutput (stripString out.stdout)
      let stderrStr := stripString out.stderr
      let outVal := Value.obj
        [("returncode", .int out.returncode), ("stdout", .str stdoutStr),
         ("stderr", .str stderrStr)]
      if out.returncode == 0 then
        ({ success := true, output := outVal, error := none }, [command])
      else
        ({ success := false, output := outVal,
           error := some ("命令返回非零状态码: " ++ toString out.returncode) },
         [command])

/-- `TerminalSkill._run_safe_command` (`src/skills/terminal.py` lines
166-181): refuse commands outside the safe list, otherwise delegate to
`_run_command`. -/
def runSafeCommand (cfg : SecurityConfig) (oracle : String → SubprocOutcome)
    (command : String) (timeoutSec : Nat) : SkillResult × List String :=
  if !(isCommandReadonly cfg command) then
    ({ success := false, output := .null,
       error := some ("命令不在安全列表中: " ++ command) }, [])
  else
    runCommand cfg oracle command timeoutSec

/-- `TerminalSkill.execute` (`src/skills/terminal.py` lines 68-83): route by
`action`. -/
def terminalExecute (cfg : SecurityConfig) (oracle : String → SubprocOutcome)
    (args : TermArgs) : SkillResult × List String :=
  if args.action == "run_command" then
    runCommand cfg oracle args.command args.timeoutSec
  else if args.action == "run_safe_command" then
    runSafeCommand cfg oracle args.command args.timeoutSec
  else
    ({ success := false, output := .null,
       error := some ("未知的操作: " ++ args.action) }, [])

/-- The terminal skill as registered with the planner: it defines
`needs_confirmation`, and its `execute` returns an instance of
`base_skill.SkillResult` (terminal.py line 12 imports that class), which the
planner-local isinstance test at `planner.py` line 243 does not
recognize. -/
def terminalSkill (cfg : SecurityConfig) (oracle : String → SubprocOutcome) :
    PSkill TermArgs :=
  { hasNeedsConfirmation := true
  , needsConfirmation := termNeedsConfirmation cfg
  , execute := fun a =>
      { result := .ok (.baseSkillResult (terminalExecute cfg oracle a).1)
      , spawned := (terminalExecute cfg oracle a).2 } }

/-- The base_skill.SkillResult that _run_command returns for a forbidden
command. -/
def rejectionResult : SkillResult :=
  { success := false, output := .null,
    error := some "命令被拒绝：包含禁止的操作" }

/-- `create_tool_schema` (`src/skills/base_skill.py` lines 101-130). -/
def createToolSchema (name description : String)
    (parameters : List (String × Value)) (required : Option (List String)) :
    Value :=
  .obj [("type", .str "function"),
        ("function", .obj
          [("name", .str name),
           ("description", .str description),
           ("parameters", .obj
             [("type", .str "object"),
              ("properties", .obj parameters),
              ("required", .arr ((required.getD []).map .str))])])]

/-- The wire shape stated by the spec for tool descriptors, written from the
spec wording: the descriptor is exactly
the object with a type field holding "function" and a function field holding
name, description and a parameters object of type "object" with the given
properties and required list. -/
def specToolDescriptor (name description : String)
    (properties : List (String × Value)) (required : List String) : Value :=
  .obj [("type", .str "function"),
        ("function", .obj
          [("name", .str name),
           ("description", .str description),
           ("parameters", .obj
             [("type", .str "object"),
              ("properties", .obj properties),
              ("required", .arr (required.map .str))])])]

/-- `TerminalSkill.get_schema` (`src/skills/terminal.py` lines 183-208). -/
def terminalGetSchema : Value :=
  createToolSchema "terminal" "执行终端命令。危险命令会被拒绝，需要用户确认才能执行"
    [("action", .obj
        [("type", .str "string"),
         ("enum", .arr [.str "run_command", .str "run_safe_command"]),
         ("description", .str "操作类型：run_command 需要确认，run_safe_command 仅执行只读命令")]),
     ("command", .obj
        [("type", .str "string"), ("description", .str "要执行的命令")]),
     ("cwd", .obj
        [("type", .str "string"), ("description", .str "工作目录（可选）")]),
     ("timeout", .obj
        [("type", .str "integer"), ("description", .str "超时时间（秒）")])]
    (some ["action", "command"])

/-- A needle whose first and last characters exist and are not whitespace;
such a needle survives the strip step of the safety check. -/
def edgeOk (n : List Char) : Bool :=
  (match n.head? with
   | some a => !a.isWhitespace
   | none => false) &&
  (match n.getLast? with
   | some a => !a.isWhitespace
   | none => false)

/-- A subprocess oracle for concrete runs: every spawned command succeeds
immediately with empty output. -/
def oracle0 : String → SubprocOutcome :=
  fun _ => { timedOut := false, returncode := 0, stdout := "", stderr := "" }

/-- A confirmation callback that approves every request. -/
def alwaysApprove {α : Type} : ToolCall α → Bool := fun _ => true

/-- A dispatch environment holding only the terminal skill with the default
security configuration. -/
def termEnv (oracle : String → SubprocOutcome)
    (cb : Option (ToolCall TermArgs → Bool)) : DispatchEnv TermArgs :=
  { skills := [("terminal", terminalSkill defaultSecurityConfig oracle)]
  , confirmCallback := cb }

/-- A terminal tool call running a given command via the run_command
action. -/
def termCall (cid : String) (cwd : Option String) (t : Nat)
    (command : String) : ToolCall TermArgs :=
  { id := cid, name := "terminal"
  , arguments := { action := "run_command", command := command,
                   cwd := cwd, timeoutSec := t } }

/-- A handler whose execute always raises the given message, modelling a
skill that throws at execution time. -/
def raisingSkill (α : Type) (msg : String) : PSkill α :=
  { hasNeedsConfirmation := false
  , needsConfirmation := fun _ => false
  , execute := fun _ => { result := .error msg, spawned := [] } }

/-- A dispatch environment with an empty skill registry and no confirmation
callback. -/
def envEmpty : DispatchEnv Unit := { skills := [], confirmCallback := none }

/-- The terminal environment with no confirmation callback installed. -/
def envTermNoCb : DispatchEnv TermArgs := termEnv oracle0 none

/-- A non-read-only, non-forbidden terminal call. -/
def mkdirCall : ToolCall TermArgs := termCall "1" none 30 "mkdir newdir"

/-- A read-only, non-forbidden terminal call that dispatches without any
confirmation and executes successfully, returning a
`base_skill.SkillResult` instance. -/
def echoCall : ToolCall TermArgs := termCall "e1" none 30 "echo hi"

/-- A call targeting the raising skill, with terminal-shaped arguments. -/
def boomCallT : ToolCall TermArgs :=
  { id := "b1", name := "boom"
  , arguments := { action := "run_command", command := "x" } }

/-- A call targeting a name absent from the registry, with terminal-shaped
arguments. -/
def unknownCallT : ToolCall TermArgs :=
  { id := "u1", name := "web_search"
  , arguments := { action := "run_command", command := "x" } }

/-- A registry holding the terminal skill and a raising skill, with no
confirmation callback. -/
def envMixed : DispatchEnv TermArgs :=
  { skills := [("terminal", terminalSkill defaultSecurityConfig oracle0),
               ("boom", raisingSkill TermArgs "执行失败")]
  , confirmCallback := none }

/-- A reasoning oracle that requests a tool call on each of the first nine
iterations and answers with plain content exactly at iteration
MAX_ITERATIONS. -/
def brainC2 : Nat → Except String (ChatResponse Unit) := fun i =>
  if i < MAX_ITERATIONS then
    .ok { content := ""
        , toolCalls := some [{ id := "c", name := "nosuch", arguments := () }] }
  else
    .ok { content := "done", toolCalls := none }

/-- A reasoning oracle that requests a tool call on each of the first nine
iterations and raises exactly at iteration MAX_ITERATIONS. -/
def brainC7 : Nat → Except String (ChatResponse Unit) := fun i =>
  if i < MAX_ITERATIONS then
    .ok { content := ""
        , toolCalls := some [{ id := "c", name := "nosuch", arguments := () }] }
  else
    .error "连接失败"

/-- A reasoning oracle that requests a single executing terminal call at
iteration one and plain content afterwards. -/
def brainC4 : Nat → Except String (ChatResponse TermArgs) := fun i =>
  if i = 1 then .ok { content := "", toolCalls := some [echoCall] }
  else .ok { content := "done", toolCalls := none }

/-- A reasoning oracle that requests a batch of one executing call and one
raising call at iteration one and plain content afterwards. -/
def brainC6 : Nat → Except String (ChatResponse TermArgs) := fun i =>
  if i = 1 then .ok { content := "", toolCalls := some [echoCall, boomCallT] }
  else .ok { content := "done", toolCalls := none }

/-- A reasoning oracle that requests a batch of one executing call and one
unknown-name call at iteration one and plain content afterwards. -/
def brainC8 : Nat → Except String (ChatResponse TermArgs) := fun i =>
  if i = 1 then
    .ok { content := "", toolCalls := some [echoCall, unknownCallT] }
  else .ok { content := "done", toolCalls := none }

theorem isSubList_eq_true_iff (n : List Char) :
    ∀ h : List Char, isSubList n h = true ↔ n <:+: h := by
  intro h
  induction h with
  | nil => simp [isSubList, List.isEmpty_iff, List.infix_nil]
  | cons c t ih =>
      simp [isSubList, List.isPrefixOf_iff_prefix, ih, List.infix_cons_iff]

theorem infix_dropWhile_of_head (p : Char → Bool) (x : Char) (xs : List Char)
    (hx : p x = false) :
    ∀ h : List Char, (x :: xs) <:+: h → (x :: xs) <:+: h.dropWhile p := by
  intro h
  induction h with
  | nil => intro hinf; simp [List.infix_nil] at hinf
  | cons c t ih =>
      intro hinf
      rw [List.dropWhile_cons]
      by_cases hc : p c = true
      · simp only [hc, if_true]
        apply ih
        rcases List.infix_cons_iff.mp hinf with hpre | hinf2
        · exfalso
          obtain ⟨hxc, -⟩ := List.cons_prefix_cons.mp hpre
          rw [hxc, hc] at hx
          exact Bool.noConfusion hx
        · exact hinf2
      · simp only [Bool.not_eq_true] at hc
        simp [hc]
        exact hinf

theorem infix_pyStrip {n h : List Char} (he : edgeOk n = true)
    (hinf : n <:+: h) : n <:+: pyStrip h := by
  cases n with
  | nil => simp [edgeOk] at he
  | cons x xs =>
      rw [edgeOk, Bool.and_eq_true] at he
      obtain ⟨he1, he2⟩ := he
      simp only [List.head?_cons] at he1
      have hx : Char.isWhitespace x = false := by
        simpa using he1
      cases hgl : (x :: xs).getLast? with
      | none => rw [hgl] at he2; exact Bool.noConfusion he2
      | some lc =>
          rw [hgl] at he2
          have hlc : Char.isWhitespace lc = false := by
            simpa using he2
          have step1 : (x :: xs) <:+: h.dropWhile Char.isWhitespace :=
            infix_dropWhile_of_head Char.isWhitespace x xs hx h hinf
          have step2 : (x :: xs).reverse <:+:
              (h.dropWhile Char.isWhitespace).reverse :=
            List.reverse_infix.mpr step1
          cases hr : (x :: xs).reverse with
          | nil => simp at hr
          | cons y ys =>
              have hy : Char.isWhitespace y = false := by
                have hhr : (x :: xs).reverse.head? = some lc := by
                  rw [List.head?_reverse, hgl]
                rw [hr] at hhr
                simp only [List.head?_cons, Option.some.injEq] at hhr
                rw [hhr]
                exact hlc
              rw [hr] at step2
              have step3 : (y :: ys) <:+:
                  ((h.dropWhile Char.isWhitespace).reverse).dropWhile
                    Char.isWhitespace :=
                infix_dropWhile_of_head Char.isWhitespace y ys hy _ step2
              have step4 : (x :: xs).reverse <:+: (pyStrip h).reverse := by
                simp only [pyStrip, List.reverse_reverse]
                rw [hr]
                exact step3
              exact List.reverse_infix.mp step4

theorem edgeOk_default_forbidden :
    ∀ f ∈ defaultSecurityConfig.forbidden_commands,
      edgeOk (lowerChars f) = true := by decide

theorem isCommandSafe_false_of_forbidden (command : String)
    (h : ∃ f ∈ defaultSecurityConfig.forbidden_commands,
           lowerChars f <:+: lowerChars command) :
    isCommandSafe defaultSecurityConfig command = false := by
  obtain ⟨f, hmem, hinf⟩ := h
  have he : edgeOk (lowerChars f) = true := edgeOk_default_forbidden f hmem
  have hstrip : lowerChars f <:+: pyStrip (lowerChars command) :=
    infix_pyStrip he hinf
  simp only [isCommandSafe]
  rw [List.all_eq_false]
  refine ⟨f, hmem, ?_⟩
  simp [(isSubList_eq_true_iff (lowerChars f) (pyStrip (lowerChars command))).mpr hstrip]

theorem runCommand_rejects (cfg : SecurityConfig)
    (oracle : String → SubprocOutcome) (command : String) (t : Nat)
    (h : isCommandSafe cfg command = false) :
    runCommand cfg oracle command t =
      ({ success := false, output := .null,
         error := some "命令被拒绝：包含禁止的操作" }, []) := by
  simp [runCommand, h]

theorem runSafeCommand_rejects (cfg : SecurityConfig)
    (oracle : String → SubprocOutcome) (command : String) (t : Nat)
    (h : isCommandSafe cfg command = false) :
    (runSafeCommand cfg oracle command t).1.success = false ∧
    (runSafeCommand cfg oracle command t).2 = [] ∧
    (runSafeCommand cfg oracle command t).1.error ≠ none := by
  cases hro : isCommandReadonly cfg command <;>
    simp [runSafeCommand, hro, runCommand_rejects cfg oracle command t h]

theorem runExec_prompts {α : Type} (sk : PSkill α) (a : α) :
    (runExec sk a).2.prompts = 0 := rfl

theorem runExec_spawned {α : Type} (sk : PSkill α) (a : α) :
    (runExec sk a).2.spawned = (sk.execute a).spawned := rfl

theorem dispatchOne_no_spawn {α : Type} (env : DispatchEnv α)
    (tc : ToolCall α) (sk : PSkill α)
    (hlk : env.skills.lookup tc.name = some sk)
    (hsp : (sk.execute tc.arguments).spawned = []) :
    (dispatchOne env tc).2.spawned = [] := by
  have hre : (runExec sk tc.arguments).2.spawned = [] := by
    rw [runExec_spawned]; exact hsp
  cases h1 : sk.hasNeedsConfirmation with
  | false => simp [dispatchOne, hlk, h1, hre]
  | true =>
      cases h2 : sk.needsConfirmation tc.arguments with
      | false => simp [dispatchOne, hlk, h1, h2, hre]
      | true =>
          cases hcb : env.confirmCallback with
          | none => simp [dispatchOne, hlk, h1, h2, hcb, hre]
          | some cb =>
              cases happ : cb tc <;>
                simp [dispatchOne, hlk, h1, h2, hcb, happ, hre]

theorem executeToolCalls_length {α : Type} (env : DispatchEnv α)
    (tcs : List (ToolCall α)) :
    (executeToolCalls env tcs).length = tcs.length := by
  induction tcs with
  | nil => rfl
  | cons tc rest ih => simp [executeToolCalls, ih]

theorem executeToolCalls_append {α : Type} (env : DispatchEnv α)
    (l₁ l₂ : List (ToolCall α)) :
    executeToolCalls env (l₁ ++ l₂) =
      executeToolCalls env l₁ ++ executeToolCalls env l₂ := by
  induction l₁ with
  | nil => rfl
  | cons tc rest ih => simp [executeToolCalls, ih]

theorem stitchToolMessages_err {α : Type} :
    ∀ (tcs : List (ToolCall α)) (results : List ResultDict),
      (stitchToolMessages tcs results).2 = none ∨
      (stitchToolMessages tcs results).2 = some serializeErrorMsg := by
  intro tcs
  induction tcs with
  | nil => intro results; left; rfl
  | cons tc rest ih =>
      intro results
      cases results with
      | nil => left; rfl
      | cons r rs =>
          cases hs : serializableDict r
          · right; simp [stitchToolMessages, hs]
          · simp only [stitchToolMessages, hs, if_true]
            exact ih rs

theorem reactLoopAux_step_err {α : Type} (env : DispatchEnv α)
    (brain : Nat → Except String (ChatResponse α)) (fuel it c : Nat)
    (msgs : List (Message α)) (e : String)
    (hb : brain (it + 1) = Except.error e) :
    reactLoopAux env brain (fuel + 1) it c msgs =
      { finalResponse := apologeticMessage e, iteration := it + 1,
        calls := c + 1, messages := msgs } := by
  simp only [reactLoopAux]
  rw [hb]

theorem reactLoopAux_step_content {α : Type} (env : DispatchEnv α)
    (brain : Nat → Except String (ChatResponse α)) (fuel it c : Nat)
    (msgs : List (Message α)) (resp : ChatResponse α)
    (hb : brain (it + 1) = Except.ok resp)
    (ht : hasToolCalls resp.toolCalls = false) :
    reactLoopAux env brain (fuel + 1) it c msgs =
      { finalResponse := resp.content, iteration := it + 1,
        calls := c + 1, messages := msgs } := by
  simp only [reactLoopAux]
  rw [hb]
  simp [ht]

theorem reactLoopAux_step_continue {α : Type} (env : DispatchEnv α)
    (brain : Nat → Except String (ChatResponse α)) (fuel it c : Nat)
    (msgs : List (Message α)) (resp : ChatResponse α)
    (hb : brain (it + 1) = Except.ok resp)
    (ht : hasToolCalls resp.toolCalls = true)
    (hss : (stepStitch env msgs resp.content (resp.toolCalls.getD [])).2
        = none) :
    reactLoopAux env brain (fuel + 1) it c msgs =
      reactLoopAux env brain fuel (it + 1) (c + 1)
        (stepStitch env msgs resp.content (resp.toolCalls.getD [])).1 := by
  simp only [reactLoopAux]
  rw [hb]
  simp [ht, hss]

theorem reactLoopAux_step_stitchfail {α : Type} (env : DispatchEnv α)
    (brain : Nat → Except String (ChatResponse α)) (fuel it c : Nat)
    (msgs : List (Message α)) (resp : ChatResponse α) (e : String)
    (hb : brain (it + 1) = Except.ok resp)
    (ht : hasToolCalls resp.toolCalls = true)
    (hss : (stepStitch env msgs resp.content (resp.toolCalls.getD [])).2
        = some e) :
    reactLoopAux env brain (fuel + 1) it c msgs =
      { finalResponse := apologeticMessage e, iteration := it + 1,
        calls := c + 1,
        messages := (stepStitch env msgs resp.content
          (resp.toolCalls.getD [])).1 } := by
  simp only [reactLoopAux]
  rw [hb]
  simp [ht, hss]

theorem reactLoopAux_calls_le {α : Type} (env : DispatchEnv α)
    (brain : Nat → Except String (ChatResponse α)) :
    ∀ (fuel it c : Nat) (msgs : List (Message α)),
      (reactLoopAux env brain fuel it c msgs).calls ≤ c + fuel := by
  intro fuel
  induction fuel with
  | zero =>
      intro it c msgs
      show c ≤ c + 0
      omega
  | succ n ih =>
      intro it c msgs
      cases hb : brain (it + 1) with
      | error e =>
          rw [reactLoopAux_step_err env brain n it c msgs e hb]
          show c + 1 ≤ c + (n + 1)
          omega
      | ok resp =>
          cases ht : hasToolCalls resp.toolCalls
          · rw [reactLoopAux_step_content env brain n it c msgs resp hb ht]
            show c + 1 ≤ c + (n + 1)
            omega
          · cases hss : (stepStitch env msgs resp.content
                (resp.toolCalls.getD [])).2 with
            | none =>
                rw [reactLoopAux_step_continue env brain n it c msgs resp
                  hb ht hss]
                have h2 := ih (it + 1) (c + 1)
                  (stepStitch env msgs resp.content (resp.toolCalls.getD [])).1
                omega
            | some e =>
                rw [reactLoopAux_step_stitchfail env brain n it c msgs resp e
                  hb ht hss]
                show c + 1 ≤ c + (n + 1)
                omega

theorem reactLoopAux_classify {α : Type} (env : DispatchEnv α)
    (brain : Nat → Except String (ChatResponse α)) :
    ∀ (fuel it c : Nat) (msgs : List (Message α)),
      ((reactLoopAux env brain fuel it c msgs).finalResponse = "" ∧
        (reactLoopAux env brain fuel it c msgs).iteration = it + fuel) ∨
      (∃ k r, brain k = Except.ok r ∧
        (reactLoopAux env brain fuel it c msgs).finalResponse = r.content) ∨
      (∃ k e, brain k = Except.error e ∧
        (reactLoopAux env brain fuel it c msgs).finalResponse =
          apologeticMessage e) ∨
      (reactLoopAux env brain fuel it c msgs).finalResponse =
        apologeticMessage serializeErrorMsg := by
  intro fuel
  induction fuel with
  | zero => intro it c msgs; left; exact ⟨rfl, rfl⟩
  | succ n ih =>
      intro it c msgs
      cases hb : brain (it + 1) with
      | error e =>
          rw [reactLoopAux_step_err env brain n it c msgs e hb]
          right; right; left
          exact ⟨it + 1, e, hb, rfl⟩
      | ok resp =>
          cases ht : hasToolCalls resp.toolCalls
          · rw [reactLoopAux_step_content env brain n it c msgs resp hb ht]
            right; left
            exact ⟨it + 1, resp, hb, rfl⟩
          · cases hss : (stepStitch env msgs resp.content
                (resp.toolCalls.getD [])).2 with
            | none =>
                rw [reactLoopAux_step_continue env brain n it c msgs resp
                  hb ht hss]
                rcases ih (it + 1) (c + 1)
                    (stepStitch env msgs resp.content (resp.toolCalls.getD [])).1
                  with ⟨h1, h2⟩ | hrest | hrest | hrest
                · left
                  refine ⟨h1, ?_⟩
                  rw [h2]; omega
                · right; left; exact hrest
                · right; right; left; exact hrest
                · right; right; right; exact hrest
            | some e =>
                rw [reactLoopAux_step_stitchfail env brain n it c msgs resp e
                  hb ht hss]
                right; right; right
                have h2 : (stitchToolMessages (resp.toolCalls.getD [])
                    (executeToolCalls env (resp.toolCalls.getD []))).2
                    = some e := hss
                rcases stitchToolMessages_err (resp.toolCalls.getD [])
                    (executeToolCalls env (resp.toolCalls.getD []))
                  with h3 | h3
                · rw [h2] at h3; exact absurd h3 (by simp)
                · rw [h2] at h3
                  have he : e = serializeErrorMsg := Option.some.inj h3
                  show apologeticMessage e = apologeticMessage serializeErrorMsg
                  rw [he]

/-- C1: every command string containing (case-insensitively) a substring
from the configured forbidden-commands deny-list is rejected by
run_command with success false, the rejection error and no subprocess
spawned; run_safe_command, which delegates to run_command, likewise fails
without spawning; and when such a run_command call is dispatched through
the planner, the skill still returns the rejecting
base_skill.SkillResult(success=false) and zero subprocesses are spawned,
regardless of the confirmation callback and of its outcome — even when
confirmation is approved. -/
theorem c1_forbidden_command_never_executed
    (oracle : String → SubprocOutcome) (command : String) (t : Nat)
    (h : ∃ f ∈ defaultSecurityConfig.forbidden_commands,
           lowerChars f <:+: lowerChars command) :
    runCommand defaultSecurityConfig oracle command t =
      ({ success := false, output := .null,
         error := some "命令被拒绝：包含禁止的操作" }, []) ∧
    ((runSafeCommand defaultSecurityConfig oracle command t).1.success
        = false ∧
     (runSafeCommand defaultSecurityConfig oracle command t).2 = [] ∧
     (runSafeCommand defaultSecurityConfig oracle command t).1.error
        ≠ none) ∧
    (∀ (cb : Option (ToolCall TermArgs → Bool)) (cid : String)
       (cwd : Option String),
      (terminalSkill defaultSecurityConfig oracle).execute
          (termCall cid cwd t command).arguments =
        { result := Except.ok (ExecValue.baseSkillResult rejectionResult)
        , spawned := [] } ∧
      (dispatchOne (termEnv oracle cb)
          (termCall cid cwd t command)).2.spawned = []) := by
  have hsafe : isCommandSafe defaultSecurityConfig command = false :=
    isCommandSafe_false_of_forbidden command h
  have hrc := runCommand_rejects defaultSecurityConfig oracle command t hsafe
  refine ⟨hrc,
    runSafeCommand_rejects defaultSecurityConfig oracle command t hsafe, ?_⟩
  intro cb cid cwd
  have hexec : (terminalSkill defaultSecurityConfig oracle).execute
      (termCall cid cwd t command).arguments =
      { result := .ok (.baseSkillResult
          (runCommand defaultSecurityConfig oracle command t).1)
      , spawned := (runCommand defaultSecurityConfig oracle command t).2 } := by
    simp [terminalSkill, termCall, terminalExecute]
  constructor
  · rw [hexec, hrc]
    rfl
  · refine dispatchOne_no_spawn (termEnv oracle cb)
      (termCall cid cwd t command)
      (terminalSkill defaultSecurityConfig oracle) rfl ?_
    rw [hexec, hrc]

/-- Witness for C1 at the concrete command of the spec test. -/
theorem c1_witness :
    (∃ f ∈ defaultSecurityConfig.forbidden_commands,
       lowerChars f <:+: lowerChars "rm -rf /tmp/x") ∧
    runCommand defaultSecurityConfig oracle0 "rm -rf /tmp/x" 30 =
      ({ success := false, output := .null,
         error := some "命令被拒绝：包含禁止的操作" }, []) :=
  ⟨by decide, (c1_forbidden_command_never_executed oracle0 "rm -rf /tmp/x" 30
      (by decide)).1⟩

/-- C2 (code-bug evaluation): with tool-call responses at iterations one to
nine and a plain-content response "done" exactly at iteration
MAX_ITERATIONS, the returned final text is the cap message rather than
"done" — the final overwrite guarded only by iteration at or above
MAX_ITERATIONS discards the plain-content answer obtained at the last
iteration, contradicting the claim. -/
theorem c2_plain_answer_at_cap_overwritten :
    brainC2 MAX_ITERATIONS =
      Except.ok { content := "done", toolCalls := none } ∧
    (planAndExecute envEmpty brainC2 []).finalResponse = capMessage ∧
    capMessage ≠ "done" :=
  ⟨rfl, rfl, by decide⟩

/-- C3 counterexample: dispatching the forbidden command "format C:" with an
installed, always-approving confirmation callback issues one confirmation
prompt, and the recorded result dict even has success true with the
rejecting SkillResult buried in its output slot (the planner-local
isinstance test does not recognize base_skill.SkillResult) — contradicting
the claimed zero prompts and success false; no subprocess is spawned. -/
theorem c3_counterexample_prompt_issued :
    (dispatchOne (termEnv oracle0 (some alwaysApprove))
        (termCall "1" none 30 "format C:")).2.prompts ≠ 0 ∧
    (dispatchOne (termEnv oracle0 (some alwaysApprove))
        (termCall "1" none 30 "format C:")).2.prompts = 1 ∧
    (dispatchOne (termEnv oracle0 (some alwaysApprove))
        (termCall "1" none 30 "format C:")).1.success = true ∧
    (dispatchOne (termEnv oracle0 (some alwaysApprove))
        (termCall "1" none 30 "format C:")).1.output =
      OutputVal.obj rejectionResult ∧
    (dispatchOne (termEnv oracle0 (some alwaysApprove))
        (termCall "1" none 30 "format C:")).2.spawned = [] :=
  ⟨by decide, rfl, rfl, rfl, rfl⟩

/-- C3 (amended): dispatching a terminal run_command call whose command
matches the deny-list never spawns a subprocess; needs_confirmation
consults only the read-only list, so a confirmation prompt is issued
exactly when a callback is installed and the command is not read-only; on
denial the dispatch records the user-denied failure dict, and on approval
or with no callback the skill executes and internally rejects the command,
but because the isinstance test at planner.py line 243 names the
planner-local SkillResult class, the dispatch records success true with
the rejecting base_skill.SkillResult object buried in the output slot. -/
theorem c3_amended_forbidden_dispatch
    (oracle : String → SubprocOutcome) (cb : Option (ToolCall TermArgs → Bool))
    (cid : String) (cwd : Option String) (t : Nat) (command : String)
    (h : ∃ f ∈ defaultSecurityConfig.forbidden_commands,
           lowerChars f <:+: lowerChars command) :
    (dispatchOne (termEnv oracle cb)
        (termCall cid cwd t command)).2.spawned = [] ∧
    (dispatchOne (termEnv oracle cb)
        (termCall cid cwd t command)).2.prompts =
      (if cb.isSome && !(isCommandReadonly defaultSecurityConfig command)
       then 1 else 0) ∧
    ((dispatchOne (termEnv oracle cb) (termCall cid cwd t command)).1 =
        { success := false, output := .val .null,
          error := some "用户拒绝执行此操作" } ∨
     (dispatchOne (termEnv oracle cb) (termCall cid cwd t command)).1 =
        { success := true, output := .obj rejectionResult,
          error := none }) := by
  have hsafe : isCommandSafe defaultSecurityConfig command = false :=
    isCommandSafe_false_of_forbidden command h
  have hrc := runCommand_rejects defaultSecurityConfig oracle command t hsafe
  have hres : runExec (terminalSkill defaultSecurityConfig oracle)
      (termCall cid cwd t command).arguments =
      ({ success := true, output := .obj rejectionResult, error := none },
       { prompts := 0, spawned := [] }) := by
    simp [runExec, terminalSkill, termCall, terminalExecute, hrc,
      rejectionResult]
  have hlk2 : (termEnv oracle cb).skills.lookup
      (termCall cid cwd t command).name =
      some (terminalSkill defaultSecurityConfig oracle) := rfl
  have hhn : (terminalSkill defaultSecurityConfig oracle).hasNeedsConfirmation
      = true := rfl
  have hncv : (terminalSkill defaultSecurityConfig oracle).needsConfirmation
      (termCall cid cwd t command).arguments =
      !(isCommandReadonly defaultSecurityConfig command) := rfl
  have hcbv : (termEnv oracle cb).confirmCallback = cb := rfl
  cases hro : isCommandReadonly defaultSecurityConfig command with
  | true => simp [dispatchOne, hlk2, hhn, hncv, hcbv, hro, hres]
  | false =>
      cases cb with
      | none => simp [dispatchOne, hlk2, hhn, hncv, hcbv, hro, hres]
      | some c =>
          cases happ : c (termCall cid cwd t command) <;>
            simp [dispatchOne, hlk2, hhn, hncv, hcbv, hro, happ, hres]

/-- Witness for C3 (amended) at the concrete command of spec scenario B. -/
theorem c3_witness :
    (∃ f ∈ defaultSecurityConfig.forbidden_commands,
       lowerChars f <:+: lowerChars "format C:") ∧
    ((dispatchOne (termEnv oracle0 (some alwaysApprove))
        (termCall "w3" none 30 "format C:")).2.spawned = [] ∧
     (dispatchOne (termEnv oracle0 (some alwaysApprove))
        (termCall "w3" none 30 "format C:")).2.prompts =
       (if (some (alwaysApprove (α := TermArgs))).isSome &&
            !(isCommandReadonly defaultSecurityConfig "format C:")
        then 1 else 0) ∧
     ((dispatchOne (termEnv oracle0 (some alwaysApprove))
          (termCall "w3" none 30 "format C:")).1 =
        { success := false, output := .val .null,
          error := some "用户拒绝执行此操作" } ∨
      (dispatchOne (termEnv oracle0 (some alwaysApprove))
          (termCall "w3" none 30 "format C:")).1 =
        { success := true, output := .obj rejectionResult,
          error := none })) :=
  ⟨by decide, c3_amended_forbidden_dispatch oracle0 (some alwaysApprove)
      "w3" none 30 "format C:" (by decide)⟩

/-- C4 (code-bug evaluation): for the batch holding the single executing
terminal call run_command "echo hi" (so N equals one), the dispatch builds
one result dict, but that dict embeds the returned base_skill.SkillResult
object, json.dumps raises on it, zero of the expected one tool messages
are appended, and the request aborts with the apologetic serialization
message instead of proceeding — contradicting the claimed exactly-N
stitching invariant. -/
theorem c4_serialization_truncates_batch :
    (executeToolCalls envTermNoCb [echoCall]).length = 1 ∧
    stitchToolMessages [echoCall] (executeToolCalls envTermNoCb [echoCall]) =
      ([], some serializeErrorMsg) ∧
    (planAndExecute envTermNoCb brainC4 []).finalResponse =
      apologeticMessage serializeErrorMsg ∧
    (planAndExecute envTermNoCb brainC4 []).calls = 1 ∧
    brainC4 2 = Except.ok { content := "done", toolCalls := none } :=
  ⟨rfl, rfl, rfl, rfl, rfl⟩

/-- C5: every run of plan_and_execute makes at most MAX_ITERATIONS
reasoning calls and terminates with some final text: the cap message, the
content of some reasoning response, the apologetic message for some
reasoning-client failure, or the apologetic message for the tool-result
serialization failure. -/
theorem c5_calls_bounded_and_loop_terminates {α : Type} (env : DispatchEnv α)
    (brain : Nat → Except String (ChatResponse α))
    (init : List (Message α)) :
    (planAndExecute env brain init).calls ≤ MAX_ITERATIONS ∧
    ((planAndExecute env brain init).finalResponse = capMessage ∨
     (∃ k r, brain k = Except.ok r ∧
        (planAndExecute env brain init).finalResponse = r.content) ∨
     (∃ k e, brain k = Except.error e ∧
        (planAndExecute env brain init).finalResponse =
          apologeticMessage e) ∨
     (planAndExecute env brain init).finalResponse =
        apologeticMessage serializeErrorMsg) := by
  have hcalls := reactLoopAux_calls_le env brain MAX_ITERATIONS 0 0 init
  constructor
  · by_cases hit : MAX_ITERATIONS ≤
        (reactLoopAux env brain MAX_ITERATIONS 0 0 init).iteration <;>
      simp [planAndExecute, hit] <;> omega
  · by_cases hit : MAX_ITERATIONS ≤
        (reactLoopAux env brain MAX_ITERATIONS 0 0 init).iteration
    · left; simp [planAndExecute, hit]
    · rcases reactLoopAux_classify env brain MAX_ITERATIONS 0 0 init
        with ⟨h1, h2⟩ | ⟨k, r, hbr, hfr⟩ | ⟨k, e, hbr, hfr⟩ | hfr
      · exfalso; apply hit; rw [h2]; omega
      · right; left
        exact ⟨k, r, hbr, by simp [planAndExecute, hit, hfr]⟩
      · right; right; left
        exact ⟨k, e, hbr, by simp [planAndExecute, hit, hfr]⟩
      · right; right; right
        simp [planAndExecute, hit, hfr]

/-- C6 (code-bug evaluation): in the batch [echoCall, boomCallT] the raising
call is contained at the dispatch boundary (its dict records success false
with the exception message) and the whole batch of two is dispatched, but
the orchestration loop does not continue to the next reasoning call: the
executed call produced an unserializable dict, json.dumps raises while
stitching, and the request aborts after one reasoning call with the
apologetic serialization message although the next reasoning response was
available — contradicting the claimed loop continuation. -/
theorem c6_exception_contained_but_loop_aborts :
    (dispatchOne envMixed boomCallT).1 =
      { success := false, output := .val .null, error := some "执行失败" } ∧
    (executeToolCalls envMixed [echoCall, boomCallT]).length = 2 ∧
    (planAndExecute envMixed brainC6 []).finalResponse =
      apologeticMessage serializeErrorMsg ∧
    (planAndExecute envMixed brainC6 []).calls = 1 ∧
    brainC6 2 = Except.ok { content := "done", toolCalls := none } :=
  ⟨rfl, rfl, rfl, rfl, rfl⟩

/-- C7 (code-bug evaluation): with tool-call responses at iterations one to
nine and a reasoning-client exception exactly at iteration MAX_ITERATIONS,
the loop does abort (the failing call is the last one made), but the
returned final text is the cap message rather than the apologetic failure
message, because the final overwrite also clobbers the error path at the
boundary. -/
theorem c7_error_at_cap_overwritten :
    brainC7 MAX_ITERATIONS = Except.error "连接失败" ∧
    (planAndExecute envEmpty brainC7 []).finalResponse = capMessage ∧
    (planAndExecute envEmpty brainC7 []).calls = MAX_ITERATIONS ∧
    capMessage ≠ apologeticMessage "连接失败" :=
  ⟨rfl, rfl, rfl, by decide⟩

/-- C8 (code-bug evaluation): in the batch [echoCall, unknownCallT] the
unknown-name call is recorded as a structured failure naming the skill and
the whole batch of two is dispatched without raising, but the loop does
not continue to the next reasoning call: json.dumps raises on the executed
call's dict while stitching and the request aborts after one reasoning
call with the apologetic serialization message although the next reasoning
response was available — contradicting the claimed loop continuation. -/
theorem c8_unknown_skill_contained_but_loop_aborts :
    (dispatchOne envTermNoCb unknownCallT).1 =
      { success := false, output := .val .null,
        error := some ("未知的技能: " ++ "web_search") } ∧
    (executeToolCalls envTermNoCb [echoCall, unknownCallT]).length = 2 ∧
    (planAndExecute envTermNoCb brainC8 []).finalResponse =
      apologeticMessage serializeErrorMsg ∧
    (planAndExecute envTermNoCb brainC8 []).calls = 1 ∧
    brainC8 2 = Except.ok { content := "done", toolCalls := none } :=
  ⟨rfl, rfl, rfl, rfl, rfl⟩

/-- C9: create_tool_schema returns exactly the wire-shape descriptor stated
by the spec, with the required list defaulting to the empty list when not
supplied. -/
theorem c9_create_tool_schema_shape (nm desc : String)
    (parameters : List (String × Value)) (required : Option (List String)) :
    createToolSchema nm desc parameters required =
      specToolDescriptor nm desc parameters (required.getD []) := by
  cases required <;> rfl

/-- C10: when no confirmation callback is installed, a tool call whose
skill reports needs_confirmation true is executed exactly as if no
confirmation were required — no denial result and zero confirmation
prompts. -/
theorem c10_missing_callback_skips_confirmation {α : Type}
    (env : DispatchEnv α) (tc : ToolCall α) (sk : PSkill α)
    (hcb : env.confirmCallback = none)
    (hlk : env.skills.lookup tc.name = some sk)
    (hnc : sk.needsConfirmation tc.arguments = true) :
    dispatchOne env tc = runExec sk tc.arguments ∧
    (dispatchOne env tc).2.prompts = 0 := by
  have heq : dispatchOne env tc = runExec sk tc.arguments := by
    cases hflag : sk.hasNeedsConfirmation <;>
      simp [dispatchOne, hlk, hflag, hnc, hcb]
  exact ⟨heq, by rw [heq]; exact runExec_prompts sk tc.arguments⟩

/-- Witness for C10: with no callback installed, a non-read-only terminal
command is executed without any prompt. -/
theorem c10_witness :
    envTermNoCb.confirmCallback = none ∧
    (terminalSkill defaultSecurityConfig oracle0).needsConfirmation
      mkdirCall.arguments = true ∧
    dispatchOne envTermNoCb mkdirCall =
      runExec (terminalSkill defaultSecurityConfig oracle0)
        mkdirCall.arguments :=
  ⟨rfl, by decide, (c10_missing_callback_skips_confirmation envTermNoCb
      mkdirCall (terminalSkill defaultSecurityConfig oracle0) rfl rfl
      (by decide)).1⟩
